import Mathlib

/-!
# Verification of `src/API.js` (victornguyening/FizzBuzz)

Shallow embedding of the two HTTP helper functions `get(url)` and
`post(url, data)` from `src/API.js`, together with models of the platform
primitives they call (`JSON.parse`, `JSON.stringify`) and of the
single-shot promise / `XMLHttpRequest` completion semantics they rely on.

JSON numbers are modelled as integers: every numeric value appearing in
the repository's data model and documentation (`score`, status codes) is
an integer, and no claim involves fractional numbers.
-/

/-- A JSON value, as produced by the platform `JSON.parse` and consumed by
`JSON.stringify`.  Objects are ordered association lists; `JSON.parse`
never yields duplicate keys (a repeated key overwrites the earlier value,
keeping the first occurrence's position, as JavaScript objects do). -/
inductive JValue where
  | null
  | bool (b : Bool)
  | num (n : Int)
  | str (s : String)
  | arr (elems : List JValue)
  | obj (fields : List (String × JValue))

namespace JSON

/-- Lowercase hex digit, used for `\u00XX` escapes of control characters. -/
def hexDigit (n : Nat) : String :=
  String.singleton (Nat.digitChar n)

/-- How `JSON.stringify` escapes a single character inside a string
literal: `"` and `\` are backslash-escaped, the named control escapes are
used where they exist, all other control characters become `\u00XX`, and
every other character is emitted verbatim. -/
def escapeChar (c : Char) : String :=
  if c = '\x22' then "\\\x22"
  else if c = '\x5c' then "\\\\"
  else if c = '\n' then "\\n"
  else if c = '\r' then "\\r"
  else if c = '\t' then "\\t"
  else if c = '\x08' then "\\b"
  else if c = '\x0c' then "\\f"
  else if c.toNat < 32 then "\\u00" ++ hexDigit (c.toNat / 16) ++ hexDigit (c.toNat % 16)
  else String.singleton c

/-- A JSON string literal: the escaped characters between quotes. -/
def quote (s : String) : String :=
  "\x22" ++ String.join (s.data.map escapeChar) ++ "\x22"

mutual

/-- The platform `JSON.stringify`, restricted to serializable (acyclic)
values: the canonical compact JSON text, with no added whitespace. -/
def stringify : JValue → String
  | .null => "null"
  | .bool true => "true"
  | .bool false => "false"
  | .num n => toString n
  | .str s => quote s
  | .arr es => "[" ++ stringifyElems es ++ "]"
  | .obj fs => "\x7b" ++ stringifyFields fs ++ "\x7d"

/-- Comma-separated serialization of array elements. -/
def stringifyElems : List JValue → String
  | [] => ""
  | [v] => stringify v
  | v :: rest => stringify v ++ "," ++ stringifyElems rest

/-- Comma-separated serialization of object fields. -/
def stringifyFields : List (String × JValue) → String
  | [] => ""
  | [(k, v)] => quote k ++ ":" ++ stringify v
  | (k, v) :: rest => quote k ++ ":" ++ stringify v ++ "," ++ stringifyFields rest

end

/-- JSON insignificant whitespace (space, tab, line feed, carriage return). -/
def isWs (c : Char) : Bool :=
  c = ' ' ∨ c = '\t' ∨ c = '\n' ∨ c = '\r'

/-- Drop leading JSON whitespace. -/
def skipWs : List Char → List Char
  | c :: rest => if isWs c then skipWs rest else c :: rest
  | [] => []

/-- Value of a hexadecimal digit, for `\uXXXX` escapes. -/
def hexVal (c : Char) : Option Nat :=
  if '0' ≤ c ∧ c ≤ '9' then some (c.toNat - 48)
  else if 'a' ≤ c ∧ c ≤ 'f' then some (c.toNat - 87)
  else if 'A' ≤ c ∧ c ≤ 'F' then some (c.toNat - 55)
  else none

/-- Body of a JSON string literal, after the opening quote: collect
characters up to the closing quote, decoding backslash escapes; raw
control characters and bad escapes are rejected, as `JSON.parse` does. -/
def parseStrAux (acc : String) : List Char → Option (String × List Char)
  | [] => none
  | '\x22' :: rest => some (acc, rest)
  | '\x5c' :: '\x22' :: rest => parseStrAux (acc.push '\x22') rest
  | '\x5c' :: '\x5c' :: rest => parseStrAux (acc.push '\x5c') rest
  | '\x5c' :: '/' :: rest => parseStrAux (acc.push '/') rest
  | '\x5c' :: 'n' :: rest => parseStrAux (acc.push '\n') rest
  | '\x5c' :: 'r' :: rest => parseStrAux (acc.push '\r') rest
  | '\x5c' :: 't' :: rest => parseStrAux (acc.push '\t') rest
  | '\x5c' :: 'b' :: rest => parseStrAux (acc.push '\x08') rest
  | '\x5c' :: 'f' :: rest => parseStrAux (acc.push '\x0c') rest
  | '\x5c' :: 'u' :: h1 :: h2 :: h3 :: h4 :: rest =>
    match hexVal h1, hexVal h2, hexVal h3, hexVal h4 with
    | some a, some b, some c, some d =>
      parseStrAux (acc.push (Char.ofNat (((a * 16 + b) * 16 + c) * 16 + d))) rest
    | _, _, _, _ => none
  | '\x5c' :: _ => none
  | c :: rest => if c.toNat < 32 then none else parseStrAux (acc.push c) rest

/-- Accumulate a run of decimal digits. -/
def digitsAux (acc : Nat) : List Char → Nat × List Char
  | c :: rest =>
    if c.isDigit then digitsAux (acc * 10 + (c.toNat - 48)) rest
    else (acc, c :: rest)
  | [] => (acc, [])

/-- An unsigned JSON integer: `0` alone, or a nonzero leading digit
followed by more digits (leading zeros are rejected, as in JSON). -/
def parseNatNum : List Char → Option (Nat × List Char)
  | '0' :: c :: rest => if c.isDigit then none else some (0, c :: rest)
  | ['0'] => some (0, [])
  | c :: rest =>
    if c.isDigit then some (digitsAux (c.toNat - 48) rest) else none
  | [] => none

/-- A JSON number (integer fragment): optional minus sign then digits. -/
def parseNum : List Char → Option (JValue × List Char)
  | '-' :: rest =>
    (parseNatNum rest).map fun p => (JValue.num (-(p.1 : Int)), p.2)
  | s => (parseNatNum s).map fun p => (JValue.num (p.1 : Int), p.2)

/-- Record a parsed object field: a repeated key overwrites the earlier
value in place (JavaScript object semantics), otherwise append. -/
def insertField (fs : List (String × JValue)) (k : String) (v : JValue) :
    List (String × JValue) :=
  if fs.any (fun p => p.1 == k) then
    fs.map (fun p => if p.1 == k then (k, v) else p)
  else fs ++ [(k, v)]

mutual

/-- One JSON value, returning it with the unconsumed remainder.  `fuel`
only bounds recursion depth; `parse` supplies enough for any input. -/
def parseVal : Nat → List Char → Option (JValue × List Char)
  | 0, _ => none
  | fuel + 1, s =>
    match skipWs s with
    | 'n' :: 'u' :: 'l' :: 'l' :: rest => some (JValue.null, rest)
    | 't' :: 'r' :: 'u' :: 'e' :: rest => some (JValue.bool true, rest)
    | 'f' :: 'a' :: 'l' :: 's' :: 'e' :: rest => some (JValue.bool false, rest)
    | '\x22' :: rest => (parseStrAux "" rest).map fun p => (JValue.str p.1, p.2)
    | '[' :: rest =>
      match skipWs rest with
      | ']' :: r2 => some (JValue.arr [], r2)
      | r2 => (parseElems fuel r2).map fun p => (JValue.arr p.1, p.2)
    | '\x7b' :: rest =>
      match skipWs rest with
      | '\x7d' :: r2 => some (JValue.obj [], r2)
      | r2 => (parseFields fuel [] r2).map fun p => (JValue.obj p.1, p.2)
    | rest => parseNum rest

/-- Nonempty comma-separated array elements, up to the closing `]`. -/
def parseElems : Nat → List Char → Option (List JValue × List Char)
  | 0, _ => none
  | fuel + 1, s =>
    match parseVal fuel s with
    | none => none
    | some (v, rest) =>
      match skipWs rest with
      | ',' :: r2 => (parseElems fuel r2).map fun p => (v :: p.1, p.2)
      | ']' :: r2 => some ([v], r2)
      | _ => none

/-- Nonempty comma-separated object fields, up to the closing brace. -/
def parseFields : Nat → List (String × JValue) → List Char →
    Option (List (String × JValue) × List Char)
  | 0, _, _ => none
  | fuel + 1, acc, s =>
    match skipWs s with
    | '\x22' :: rest =>
      match parseStrAux "" rest with
      | none => none
      | some (k, r2) =>
        match skipWs r2 with
        | ':' :: r3 =>
          match parseVal fuel r3 with
          | none => none
          | some (v, r4) =>
            match skipWs r4 with
            | ',' :: r5 => parseFields fuel (insertField acc k v) r5
            | '\x7d' :: r5 => some (insertField acc k v, r5)
            | _ => none
        | _ => none
    | _ => none

end

/-- The platform `JSON.parse`: `some v` when the whole text is a single
valid JSON value (integer numeric fragment), `none` when parsing throws a
`SyntaxError`. -/
def parse (s : String) : Option JValue :=
  match parseVal (2 * s.length + 4) s.data with
  | some (v, rest) => if skipWs rest = [] then some v else none
  | none => none

end JSON

/-- The HTTP request an `XMLHttpRequest` sends: the method and url passed
to `http.open`, the headers set with `http.setRequestHeader`, and the body
passed to `http.send` (`none` when `send()` takes no argument). -/
structure Request where
  method : String
  url : String
  headers : List (String × String)
  body : Option String

/-- One network completion, as seen by the `onload` handler: `http.status`
and the response body text `http.response`. -/
structure Completion where
  status : Nat
  response : String

/-- The `Response` shape of `src/API.js` (its `@typedef`): the record
`\x7b status, data \x7d` the promise resolves with. -/
structure Response where
  status : Nat
  data : JValue

/-- What one run of the `onload` handler does (src/API.js lines 23-25 and
66-68, identical in `get` and `post`): it evaluates
`JSON.parse(http.response)` and, when that succeeds, calls `resolve` on
`\x7b status: http.status, data: <parsed> \x7d`; when `JSON.parse` throws a
`SyntaxError`, the exception propagates out of the handler before
`resolve` is reached. -/
inductive HandlerStep where
  | resolvedWith (r : Response)
  | threw (msg : String)

/-- The shared `onload` handler. -/
def onload (c : Completion) : HandlerStep :=
  match JSON.parse c.response with
  | some d => .resolvedWith ⟨c.status, d⟩
  | none => .threw "SyntaxError: Unexpected token in JSON"

/-- Final state of a single-shot promise. -/
inductive Outcome where
  | pending
  | resolved (r : Response)
  | rejected (msg : String)

/-- Whether a promise outcome is a rejection. -/
def Outcome.isRejected : Outcome → Bool
  | .rejected _ => true
  | _ => false

/-- Whether a promise outcome is a resolution. -/
def Outcome.isResolved : Outcome → Bool
  | .resolved _ => true
  | _ => false

/-- Outcome of the promise built by `get`/`post`, as a function of the
network behaviour `net` (`some c` when the load event fires with
completion `c`; `none` when it never fires, e.g. on network failure).
The executor wires up only `onload` and returns; `reject` is never
invoked anywhere.  An exception thrown later inside the `onload` event
handler propagates to the event loop as an uncaught error — it does not
reject the promise, whose executor has long since returned — so the
promise settles exactly when the handler reaches its `resolve` call. -/
def promiseOutcome (net : Option Completion) : Outcome :=
  match net with
  | none => .pending
  | some c =>
    match onload c with
    | .resolvedWith r => .resolved r
    | .threw _ => .pending

/-- A call to `get` or `post` once its promise exists: the request handed
to the network, and the promise's outcome as a function of the network
behaviour. -/
structure Call where
  request : Request
  outcomeOf : Option Completion → Outcome

/-- An argument a caller can pass to `post`: either a serializable
(acyclic) value, or a circular structure, on which the platform
`JSON.stringify` throws a `TypeError`. -/
inductive JSData where
  | val (v : JValue)
  | circular

/-- The platform `JSON.stringify` as called on arbitrary caller data. -/
def stringifyJS : JSData → Except String String
  | .val v => .ok (JSON.stringify v)
  | .circular => .error "TypeError: Converting circular structure to JSON"

/-- The request built by `post`'s executor once the body text exists:
`http.open("POST", url)`, `http.setRequestHeader("Content-Type",
"application/json")`, `http.send(body)`. -/
def postRequest (url : String) (body : String) : Request :=
  { method := "POST", url := url
    headers := [("Content-Type", "application/json")]
    body := some body }

/-- The promise `post` returns, paired with the request it sends. -/
def postCall (url : String) (body : String) : Call :=
  { request := postRequest url body, outcomeOf := promiseOutcome }

namespace API

/-- `get(url)` from src/API.js lines 20-29: builds a promise whose
executor creates an `XMLHttpRequest`, installs the `onload` handler,
opens `GET url` with no extra headers, and sends no body. -/
def get (url : String) : Call :=
  { request := { method := "GET", url := url, headers := [], body := none }
    outcomeOf := promiseOutcome }

/-- `post(url, data)` from src/API.js lines 62-74: first reassigns
`data = JSON.stringify(data)` — so a `TypeError` from a circular argument
is thrown synchronously, before any promise or request exists — then
builds a promise whose executor installs the same `onload` handler, opens
`POST url`, sets the header `Content-Type: application/json`, and sends
the serialized body. -/
def post (url : String) (data : JSData) : Except String Call :=
  match stringifyJS data with
  | .error e => .error e
  | .ok body => .ok (postCall url body)

end API

/-- Whether `post` returned a promise (rather than throwing). -/
def returnedCall : Except String Call → Bool
  | .ok _ => true
  | .error _ => false

/-! ## Shared lemmas -/

/-- On a serializable argument, `post` returns the promise built from the
serialized body. -/
theorem post_val_eq (url : String) (v : JValue) :
    API.post url (.val v) = .ok (postCall url (JSON.stringify v)) := rfl

/-- No branch of the completion handling ever calls `reject`, so no
network behaviour can reject the promise. -/
theorem promiseOutcome_isRejected_false (net : Option Completion) :
    (promiseOutcome net).isRejected = false := by
  cases net with
  | none => rfl
  | some comp =>
    cases hd : onload comp with
    | resolvedWith r => simp [promiseOutcome, hd, Outcome.isRejected]
    | threw m => simp [promiseOutcome, hd, Outcome.isRejected]

/-- When the promise resolves, the resolved record carries the
completion's HTTP status unmodified. -/
theorem promiseOutcome_resolved_status (comp : Completion) (r : Response)
    (h : promiseOutcome (some comp) = Outcome.resolved r) :
    r.status = comp.status := by
  cases hp : JSON.parse comp.response with
  | none => simp [promiseOutcome, onload, hp] at h
  | some v =>
    simp only [promiseOutcome, onload, hp] at h
    cases h
    rfl

/-! ## Claims -/

/-- **C1.** For every completed HTTP response whose body JSON-parses to
`d`, the promise returned by `get(url)` resolves to `\x7b status, data \x7d`
where `status` is the HTTP status code of the response and `data = d`. -/
theorem get_resolves_status_and_parsed_body (url : String) (s : Nat)
    (body : String) (d : JValue) (h : JSON.parse body = some d) :
    (API.get url).outcomeOf (some ⟨s, body⟩) = Outcome.resolved ⟨s, d⟩ := by
  show promiseOutcome (some ⟨s, body⟩) = Outcome.resolved ⟨s, d⟩
  unfold promiseOutcome onload
  simp [h]

/-- **C1 witness.** For a response with HTTP status 200 and body
`\x7b"id":"alice","score":5\x7d`, `get` resolves to
`\x7b status: 200, data: \x7b id: "alice", score: 5 \x7d \x7d`. -/
theorem get_resolves_status_and_parsed_body_witness :
    JSON.parse "\x7b\"id\":\"alice\",\"score\":5\x7d" =
      some (JValue.obj [("id", JValue.str "alice"), ("score", JValue.num 5)]) ∧
    (API.get "https://example.com/alice").outcomeOf
        (some ⟨200, "\x7b\"id\":\"alice\",\"score\":5\x7d"⟩) =
      Outcome.resolved
        ⟨200, JValue.obj [("id", JValue.str "alice"), ("score", JValue.num 5)]⟩ :=
  ⟨rfl, get_resolves_status_and_parsed_body "https://example.com/alice" 200
    "\x7b\"id\":\"alice\",\"score\":5\x7d"
    (JValue.obj [("id", JValue.str "alice"), ("score", JValue.num 5)]) rfl⟩

/-- **C2.** For every network completion whose body is valid JSON, the
promises returned by `get` and `post` resolve — whatever the HTTP status,
including 4xx/5xx — to `\x7b status, data \x7d`; they are never rejected. -/
theorem get_post_resolve_even_on_error_status (url : String) (d : JValue)
    (s : Nat) (body : String) (j : JValue) (h : JSON.parse body = some j) :
    (API.get url).outcomeOf (some ⟨s, body⟩) = Outcome.resolved ⟨s, j⟩ ∧
    API.post url (.val d) = .ok (postCall url (JSON.stringify d)) ∧
    (postCall url (JSON.stringify d)).outcomeOf (some ⟨s, body⟩) =
      Outcome.resolved ⟨s, j⟩ := by
  refine ⟨?_, rfl, ?_⟩ <;>
  · show promiseOutcome (some ⟨s, body⟩) = Outcome.resolved ⟨s, j⟩
    unfold promiseOutcome onload
    simp [h]

/-- **C2 witness.** For HTTP status 400 with body
`\x7b"Error":"bad score"\x7d`, both `get` and `post` resolve to
`\x7b status: 400, data: \x7b Error: "bad score" \x7d \x7d`. -/
theorem get_post_resolve_even_on_error_status_witness :
    (API.get "https://example.com/u").outcomeOf
        (some ⟨400, "\x7b\"Error\":\"bad score\"\x7d"⟩) =
      Outcome.resolved ⟨400, JValue.obj [("Error", JValue.str "bad score")]⟩ ∧
    API.post "https://example.com/u" (.val (JValue.obj [("score", JValue.num 5)])) =
      .ok (postCall "https://example.com/u" "\x7b\"score\":5\x7d") ∧
    (postCall "https://example.com/u" "\x7b\"score\":5\x7d").outcomeOf
        (some ⟨400, "\x7b\"Error\":\"bad score\"\x7d"⟩) =
      Outcome.resolved ⟨400, JValue.obj [("Error", JValue.str "bad score")]⟩ :=
  get_post_resolve_even_on_error_status "https://example.com/u"
    (JValue.obj [("score", JValue.num 5)]) 400 "\x7b\"Error\":\"bad score\"\x7d"
    (JValue.obj [("Error", JValue.str "bad score")]) rfl

/-- **C3 counterexample.** The claim says a completed response with an
invalid-JSON body makes the promise fail (reject).  At status 200 with
body `not json` (which `JSON.parse` rejects), the promise returned by
`get` is neither rejected nor resolved: it is still pending. -/
theorem invalid_json_not_rejected_counterexample :
    JSON.parse "not json" = none ∧
    ((API.get "https://example.com/alice").outcomeOf
        (some ⟨200, "not json"⟩)).isRejected = false ∧
    ((API.get "https://example.com/alice").outcomeOf
        (some ⟨200, "not json"⟩)).isResolved = false :=
  ⟨rfl, rfl, rfl⟩

/-- **C3 (amended).** For every completed HTTP response whose body is not
valid JSON, the promise returned by `get` (and likewise by `post`) never
resolves — but it does not become a rejected future either: the
`SyntaxError` from `JSON.parse` is thrown out of the `onload` handler to
the event loop, `reject` is never invoked, and the promise stays pending
forever.  The parse failure is still the only locally surfaced error,
surfacing as that uncaught handler exception. -/
theorem invalid_json_promise_stays_pending (url : String) (d : JValue)
    (s : Nat) (body : String) (c : Call) (hb : JSON.parse body = none)
    (hc : API.post url (.val d) = .ok c) :
    (API.get url).outcomeOf (some ⟨s, body⟩) = Outcome.pending ∧
    c.outcomeOf (some ⟨s, body⟩) = Outcome.pending ∧
    onload ⟨s, body⟩ = HandlerStep.threw "SyntaxError: Unexpected token in JSON" := by
  have hc' : Except.ok (postCall url (JSON.stringify d)) = Except.ok c := hc
  injection hc' with hc2
  subst hc2
  refine ⟨?_, ?_, ?_⟩ <;> simp [API.get, postCall, promiseOutcome, onload, hb]

/-- **C3 (amended) witness.** At status 500 with body `oops`, both
promises are pending and the handler threw. -/
theorem invalid_json_promise_stays_pending_witness :
    JSON.parse "oops" = none ∧
    API.post "https://example.com/u" (.val JValue.null) =
      .ok (postCall "https://example.com/u" "null") ∧
    (API.get "https://example.com/u").outcomeOf (some ⟨500, "oops"⟩) =
      Outcome.pending ∧
    (postCall "https://example.com/u" "null").outcomeOf (some ⟨500, "oops"⟩) =
      Outcome.pending ∧
    onload ⟨500, "oops"⟩ =
      HandlerStep.threw "SyntaxError: Unexpected token in JSON" := by
  have h := invalid_json_promise_stays_pending "https://example.com/u"
    JValue.null 500 "oops" (postCall "https://example.com/u" "null") rfl rfl
  exact ⟨rfl, rfl, h.1, h.2.1, h.2.2⟩

/-- **C4.** `post(url, data)` sends a POST to `url` whose body is exactly
the JSON serialization of `data` and which carries the header
`Content-Type: application/json`; in particular `post(url, \x7b score: 5 \x7d)`
sends the exact body text `\x7b"score":5\x7d`. -/
theorem post_request_shape (url : String) (d : JValue) :
    API.post url (.val d) = .ok (postCall url (JSON.stringify d)) ∧
    (postCall url (JSON.stringify d)).request.method = "POST" ∧
    (postCall url (JSON.stringify d)).request.url = url ∧
    (postCall url (JSON.stringify d)).request.headers =
      [("Content-Type", "application/json")] ∧
    (postCall url (JSON.stringify d)).request.body = some (JSON.stringify d) ∧
    JSON.stringify (JValue.obj [("score", JValue.num 5)]) = "\x7b\"score\":5\x7d" :=
  ⟨rfl, rfl, rfl, rfl, rfl, rfl⟩

/-- **C5.** For every HTTP status code `s` the server returns, the
`status` field of the resolved response equals `s` unmodified, for `get`
and for `post` alike. -/
theorem status_passed_through_unmodified (url : String) (d : JValue)
    (comp : Completion) (r : Response) :
    ((API.get url).outcomeOf (some comp) = Outcome.resolved r →
      r.status = comp.status) ∧
    (∀ c, API.post url (.val d) = .ok c →
      c.outcomeOf (some comp) = Outcome.resolved r → r.status = comp.status) := by
  refine ⟨fun h => promiseOutcome_resolved_status comp r h, fun c hc h => ?_⟩
  have hc' : Except.ok (postCall url (JSON.stringify d)) = Except.ok c := hc
  injection hc' with hc2
  subst hc2
  exact promiseOutcome_resolved_status comp r h

/-- **C5 witness.** A completion with status 404 resolves to a response
whose `status` is 404, via `get`. -/
theorem status_passed_through_unmodified_witness :
    (API.get "https://example.com/u").outcomeOf
        (some ⟨404, "\x7b\"Error\":\"no\"\x7d"⟩) =
      Outcome.resolved ⟨404, JValue.obj [("Error", JValue.str "no")]⟩ ∧
    (Response.mk 404 (JValue.obj [("Error", JValue.str "no")])).status =
      (Completion.mk 404 "\x7b\"Error\":\"no\"\x7d").status :=
  ⟨rfl,
    (status_passed_through_unmodified "https://example.com/u" JValue.null
      ⟨404, "\x7b\"Error\":\"no\"\x7d"⟩
      ⟨404, JValue.obj [("Error", JValue.str "no")]⟩).1 rfl⟩

/-- **C6.** The response handling of `post` is that of `get`: for every
identical network behaviour (same completion, or none), the promise
returned by `post(url, data)` and the one returned by `get(url2)` settle
to equal outcomes — the same completion/error contract. -/
theorem post_same_completion_contract_as_get (u1 u2 : String) (d : JValue)
    (c : Call) (hc : API.post u1 (.val d) = .ok c)
    (net : Option Completion) :
    c.outcomeOf net = (API.get u2).outcomeOf net := by
  have hc' : Except.ok (postCall u1 (JSON.stringify d)) = Except.ok c := hc
  injection hc' with hc2
  subst hc2
  rfl

/-- **C6 witness.** At the completion `status 400, body
\x7b"Error":"bad score"\x7d`, the `post` promise and the `get` promise settle
identically. -/
theorem post_same_completion_contract_as_get_witness :
    API.post "https://example.com/u" (.val JValue.null) =
      .ok (postCall "https://example.com/u" "null") ∧
    (postCall "https://example.com/u" "null").outcomeOf
        (some ⟨400, "\x7b\"Error\":\"bad score\"\x7d"⟩) =
      (API.get "https://example.com/v").outcomeOf
        (some ⟨400, "\x7b\"Error\":\"bad score\"\x7d"⟩) :=
  ⟨rfl, post_same_completion_contract_as_get "https://example.com/u"
    "https://example.com/v" JValue.null (postCall "https://example.com/u" "null")
    rfl (some ⟨400, "\x7b\"Error\":\"bad score\"\x7d"⟩)⟩

/-- **C7.** When the network fails and no load completion event ever
fires, the promises returned by `get` and `post` never settle: they stay
pending, neither resolved nor rejected — and indeed no network behaviour
whatsoever can reject them, since no branch invokes the reject path. -/
theorem no_completion_promise_never_settles (url : String) (d : JValue)
    (c : Call) (hc : API.post url (.val d) = .ok c) :
    (API.get url).outcomeOf none = Outcome.pending ∧
    c.outcomeOf none = Outcome.pending ∧
    ∀ net, ((API.get url).outcomeOf net).isRejected = false ∧
      (c.outcomeOf net).isRejected = false := by
  have hc' : Except.ok (postCall url (JSON.stringify d)) = Except.ok c := hc
  injection hc' with hc2
  subst hc2
  exact ⟨rfl, rfl, fun net =>
    ⟨promiseOutcome_isRejected_false net, promiseOutcome_isRejected_false net⟩⟩

/-- **C7 witness.** With no completion, both promises are pending; and a
sample completion still cannot reject the `get` promise. -/
theorem no_completion_promise_never_settles_witness :
    API.post "https://example.com/u" (.val JValue.null) =
      .ok (postCall "https://example.com/u" "null") ∧
    (API.get "https://example.com/u").outcomeOf none = Outcome.pending ∧
    (postCall "https://example.com/u" "null").outcomeOf none = Outcome.pending ∧
    ((API.get "https://example.com/u").outcomeOf
        (some ⟨200, "broken"⟩)).isRejected = false := by
  have h := no_completion_promise_never_settles "https://example.com/u"
    JValue.null (postCall "https://example.com/u" "null") rfl
  exact ⟨rfl, h.1, h.2.1, (h.2.2 (some ⟨200, "broken"⟩)).1⟩

/-- **C8.** Round-trip against a pass-through echo backend: when the GET
completion simply returns the body that `post(url, X)` sent, `get(url)`
resolves with data equal to the JSON-parse of the JSON-serialization of
`X` — and the body `post` sent is exactly `JSON.stringify X`. -/
theorem echo_backend_roundtrip (url : String) (X : JValue) (c : Call)
    (y : JValue) (s : Nat) (hc : API.post url (.val X) = .ok c)
    (hy : JSON.parse (JSON.stringify X) = some y) :
    c.request.body = some (JSON.stringify X) ∧
    (API.get url).outcomeOf (some ⟨s, JSON.stringify X⟩) =
      Outcome.resolved ⟨s, y⟩ := by
  have hc' : Except.ok (postCall url (JSON.stringify X)) = Except.ok c := hc
  injection hc' with hc2
  subst hc2
  refine ⟨rfl, ?_⟩
  show promiseOutcome (some ⟨s, JSON.stringify X⟩) = Outcome.resolved ⟨s, y⟩
  unfold promiseOutcome onload
  simp [hy]

/-- **C8 witness.** Echoing `X = \x7b id: "alice", score: 5 \x7d`: the posted
body is `\x7b"id":"alice","score":5\x7d`, and `get` on that echoed body
resolves with exactly `X` again. -/
theorem echo_backend_roundtrip_witness :
    JSON.parse (JSON.stringify
        (JValue.obj [("id", JValue.str "alice"), ("score", JValue.num 5)])) =
      some (JValue.obj [("id", JValue.str "alice"), ("score", JValue.num 5)]) ∧
    (postCall "https://example.com/alice"
        (JSON.stringify
          (JValue.obj [("id", JValue.str "alice"), ("score", JValue.num 5)]))).request.body =
      some (JSON.stringify
        (JValue.obj [("id", JValue.str "alice"), ("score", JValue.num 5)])) ∧
    (API.get "https://example.com/alice").outcomeOf
        (some ⟨200, JSON.stringify
          (JValue.obj [("id", JValue.str "alice"), ("score", JValue.num 5)])⟩) =
      Outcome.resolved
        ⟨200, JValue.obj [("id", JValue.str "alice"), ("score", JValue.num 5)]⟩ := by
  have h := echo_backend_roundtrip "https://example.com/alice"
    (JValue.obj [("id", JValue.str "alice"), ("score", JValue.num 5)])
    (postCall "https://example.com/alice"
      (JSON.stringify
        (JValue.obj [("id", JValue.str "alice"), ("score", JValue.num 5)])))
    (JValue.obj [("id", JValue.str "alice"), ("score", JValue.num 5)]) 200
    rfl rfl
  exact ⟨rfl, h.1, h.2⟩

/-- **C9.** `post` serializes its argument before constructing the
promise, so on an argument `JSON.stringify` cannot serialize (a circular
structure) it throws the `TypeError` synchronously at the call site: no
promise is returned and no request is issued. -/
theorem circular_data_throws_before_promise (url : String) :
    API.post url JSData.circular =
      .error "TypeError: Converting circular structure to JSON" ∧
    returnedCall (API.post url JSData.circular) = false :=
  ⟨rfl, rfl⟩

/-- **C10.** The resolved value is a deterministic function of the
completion alone: two calls whose completions carry identical status and
body settle to equal outcomes, independent of the url, of `post`'s data
argument, and of any other call (the two functions share no mutable
state). -/
theorem outcome_depends_only_on_completion (u1 u2 : String) (d1 d2 : JValue)
    (c1 c2 : Call) (h1 : API.post u1 (.val d1) = .ok c1)
    (h2 : API.post u2 (.val d2) = .ok c2) (net : Option Completion) :
    c1.outcomeOf net = c2.outcomeOf net ∧
    c1.outcomeOf net = (API.get u1).outcomeOf net ∧
    (API.get u1).outcomeOf net = (API.get u2).outcomeOf net := by
  have h1' : Except.ok (postCall u1 (JSON.stringify d1)) = Except.ok c1 := h1
  have h2' : Except.ok (postCall u2 (JSON.stringify d2)) = Except.ok c2 := h2
  injection h1' with h1b
  injection h2' with h2b
  subst h1b
  subst h2b
  exact ⟨rfl, rfl, rfl⟩

/-- **C10 witness.** Different urls and different posted data, same
completion: all four promises settle identically. -/
theorem outcome_depends_only_on_completion_witness :
    API.post "https://example.com/a" (.val (JValue.num 1)) =
      .ok (postCall "https://example.com/a" "1") ∧
    API.post "https://example.com/b" (.val (JValue.num 2)) =
      .ok (postCall "https://example.com/b" "2") ∧
    (postCall "https://example.com/a" "1").outcomeOf (some ⟨200, "3"⟩) =
      (postCall "https://example.com/b" "2").outcomeOf (some ⟨200, "3"⟩) ∧
    (API.get "https://example.com/a").outcomeOf (some ⟨200, "3"⟩) =
      (API.get "https://example.com/b").outcomeOf (some ⟨200, "3"⟩) := by
  have h := outcome_depends_only_on_completion "https://example.com/a"
    "https://example.com/b" (JValue.num 1) (JValue.num 2)
    (postCall "https://example.com/a" "1") (postCall "https://example.com/b" "2")
    rfl rfl (some ⟨200, "3"⟩)
  exact ⟨rfl, rfl, h.1, h.2.2⟩
